import Mathlib

/-!
Shallow embedding of the persistent data schema defined in
`src/app/models.py` (a SQLModel entity module for a school
administration system), together with the storage-engine behaviour
the schema's declared constraints induce (uniqueness checks on
insert), and proofs of the specified properties.

Type mapping used throughout:
  `str` → `String`, `int` → `Int`, `bool` → `Bool`,
  `datetime` / `date` / `time` → `Nat` (abstract timestamps),
  `Decimal` → `ℚ` (exact rational; column scale is modelled by the
  quantization functions below), `Optional[X]` → `Option X`,
  Python `Enum` classes → Lean inductive types.
-/

/-- Embeds `UserRole` (models.py lines 9-12). -/
inductive UserRole where
  | ADMIN
  | GURU
  | SISWA
deriving DecidableEq

/-- Embeds `LeaveStatus` (models.py lines 15-18). -/
inductive LeaveStatus where
  | PENDING
  | APPROVED
  | REJECTED
deriving DecidableEq

/-- Embeds `SanctionStatus` (models.py lines 21-25). -/
inductive SanctionStatus where
  | PENDING
  | IN_PROCESS
  | SANCTIONED
  | NOT_SANCTIONED
deriving DecidableEq

/-- Embeds `AttendanceStatus` (models.py lines 28-33). -/
inductive AttendanceStatus where
  | PRESENT
  | ABSENT
  | LATE
  | SICK
  | EXCUSED
deriving DecidableEq

/-- Embeds `Gender` (models.py lines 36-38). -/
inductive Gender where
  | MALE
  | FEMALE
deriving DecidableEq

/-- Embeds table class `User` (`__tablename__ = "users"`, models.py lines 42-52).
`username` and `email` are declared `unique=True`. -/
structure User where
  id : Option Int
  username : String
  email : String
  password_hash : String
  role : UserRole
  is_active : Bool
  created_at : Nat
  updated_at : Nat
deriving DecidableEq

/-- Embeds table class `Jurusan` (`__tablename__ = "jurusan"`, models.py lines 60-68).
`code` is declared `unique=True`. -/
structure Jurusan where
  id : Option Int
  name : String
  code : String
  description : String
  is_active : Bool
  created_at : Nat
deriving DecidableEq

/-- Embeds table class `Kelas` (`__tablename__ = "kelas"`, models.py lines 74-85). -/
structure Kelas where
  id : Option Int
  name : String
  grade_level : Int
  jurusan_id : Int
  wali_kelas_id : Option Int
  capacity : Int
  academic_year : String
  is_active : Bool
  created_at : Nat
deriving DecidableEq

/-- Embeds table class `Guru` (`__tablename__ = "guru"`, models.py lines 94-111).
`user_id` and `nip` are declared `unique=True`. -/
structure Guru where
  id : Option Int
  user_id : Int
  nip : String
  name : String
  gender : Gender
  phone : String
  address : String
  birth_date : Nat
  birth_place : String
  education : String
  position : String
  hire_date : Nat
  is_active : Bool
  created_at : Nat
  updated_at : Nat
deriving DecidableEq

/-- Embeds table class `Siswa` (`__tablename__ = "siswa"`, models.py lines 122-142).
`user_id`, `nis` and `nisn` are declared `unique=True`;
`current_points` is a `Decimal` with `decimal_places=2`. -/
structure Siswa where
  id : Option Int
  user_id : Int
  nis : String
  nisn : String
  name : String
  gender : Gender
  phone : String
  address : String
  birth_date : Nat
  birth_place : String
  kelas_id : Option Int
  parent_name : String
  parent_phone : String
  enrollment_date : Nat
  current_points : ℚ
  is_active : Bool
  created_at : Nat
  updated_at : Nat
deriving DecidableEq

/-- Embeds table class `KepalaSekolah` (`__tablename__ = "kepala_sekolah"`,
models.py lines 153-168). `nip` is declared `unique=True`. -/
structure KepalaSekolah where
  id : Option Int
  nip : String
  name : String
  gender : Gender
  phone : String
  address : String
  birth_date : Nat
  birth_place : String
  education : String
  start_date : Nat
  end_date : Option Nat
  is_active : Bool
  created_at : Nat
deriving DecidableEq

/-- Embeds table class `JenisPrestasi` (`__tablename__ = "jenis_prestasi"`,
models.py lines 172-180). `points` is a `Decimal` with `decimal_places=2`. -/
structure JenisPrestasi where
  id : Option Int
  name : String
  description : String
  points : ℚ
  is_active : Bool
  created_at : Nat
deriving DecidableEq

/-- Embeds table class `JenisPelanggaran` (`__tablename__ = "jenis_pelanggaran"`,
models.py lines 186-195). `severity_level` is a plain `int` field with
`default=1` and a source comment `# 1-5 scale`; the schema declares no range
constraint on it. -/
structure JenisPelanggaran where
  id : Option Int
  name : String
  description : String
  points_deducted : ℚ
  severity_level : Int
  is_active : Bool
  created_at : Nat
deriving DecidableEq

/-- Embeds table class `InputPrestasi` (`__tablename__ = "input_prestasi"`,
models.py lines 201-212). `points_awarded` has `decimal_places=2`. -/
structure InputPrestasi where
  id : Option Int
  siswa_id : Int
  jenis_prestasi_id : Int
  achievement_date : Nat
  description : String
  evidence : Option String
  verified : Bool
  points_awarded : ℚ
  created_at : Nat
deriving DecidableEq

/-- Embeds table class `InputPelanggaran` (`__tablename__ = "input_pelanggaran"`,
models.py lines 219-230). `points_deducted` has `decimal_places=2`. -/
structure InputPelanggaran where
  id : Option Int
  siswa_id : Int
  jenis_pelanggaran_id : Int
  violation_date : Nat
  description : String
  evidence : Option String
  reported_by : String
  points_deducted : ℚ
  created_at : Nat
deriving DecidableEq

/-- Embeds table class `ManajemenSanksi` (`__tablename__ = "manajemen_sanksi"`,
models.py lines 239-253). `violation_id` is declared `unique=True`;
`status` has `default=SanctionStatus.PENDING`. -/
structure ManajemenSanksi where
  id : Option Int
  siswa_id : Int
  violation_id : Int
  initiated_by_id : Int
  sanction_type : String
  sanction_description : String
  status : SanctionStatus
  start_date : Option Nat
  end_date : Option Nat
  notes : String
  created_at : Nat
  updated_at : Nat
deriving DecidableEq

/-- Embeds table class `JadwalMengajar` (`__tablename__ = "jadwal_mengajar"`,
models.py lines 262-276). `day_of_week` and `semester` are plain `int`
fields (source comments `# 1-7 (Monday-Sunday)` and `# 1 or 2`); the schema
declares no range constraint on either. -/
structure JadwalMengajar where
  id : Option Int
  guru_id : Int
  kelas_id : Int
  subject : String
  day_of_week : Int
  start_time : Nat
  end_time : Nat
  academic_year : String
  semester : Int
  cluster : String
  is_active : Bool
  created_at : Nat
deriving DecidableEq

/-- Embeds table class `IzinGuru` (`__tablename__ = "izin_guru"`,
models.py lines 284-299). `status` has `default=LeaveStatus.PENDING`. -/
structure IzinGuru where
  id : Option Int
  guru_id : Int
  leave_type : String
  start_date : Nat
  end_date : Nat
  reason : String
  status : LeaveStatus
  approved_by : Option String
  approval_date : Option Nat
  rejection_reason : Option String
  attachment : Option String
  created_at : Nat
  updated_at : Nat
deriving DecidableEq

/-- Embeds table class `AttendanceGuru` (`__tablename__ = "attendance_guru"`,
models.py lines 306-318). No field of this table is declared unique;
`location_lat` / `location_lng` have `decimal_places=6`. -/
structure AttendanceGuru where
  id : Option Int
  guru_id : Int
  date : Nat
  status : AttendanceStatus
  check_in : Option Nat
  check_out : Option Nat
  location_lat : Option ℚ
  location_lng : Option ℚ
  notes : String
  created_at : Nat
deriving DecidableEq

/-- Embeds table class `AttendanceSiswa` (`__tablename__ = "attendance_siswa"`,
models.py lines 324-333). No field of this table is declared unique. -/
structure AttendanceSiswa where
  id : Option Int
  siswa_id : Int
  date : Nat
  status : AttendanceStatus
  notes : String
  recorded_by : String
  created_at : Nat
deriving DecidableEq

/-- Embeds table class `AcademicCalendar` (`__tablename__ = "academic_calendar"`,
models.py lines 340-351). -/
structure AcademicCalendar where
  id : Option Int
  title : String
  description : String
  event_date : Nat
  event_type : String
  is_announcement : Bool
  color : String
  academic_year : String
  created_at : Nat
deriving DecidableEq

/-- Embeds table class `SchoolSettings` (`__tablename__ = "school_settings"`,
models.py lines 355-370). `geofence_lat` / `geofence_lng` have
`decimal_places=6`. -/
structure SchoolSettings where
  id : Option Int
  school_name : String
  school_address : String
  school_phone : String
  school_email : String
  logo_path : Option String
  favicon_path : Option String
  geofence_enabled : Bool
  geofence_lat : Option ℚ
  geofence_lng : Option ℚ
  geofence_radius : Option Int
  academic_year : String
  updated_at : Nat
deriving DecidableEq

/-- Embeds the non-persistent validation schema `SanctionCreate`
(models.py lines 447-452): it carries no `status` and no `notes` field. -/
structure SanctionCreate where
  violation_id : Int
  sanction_type : String
  sanction_description : String
  start_date : Option Nat
  end_date : Option Nat
deriving DecidableEq

/-- Embeds the non-persistent validation schema `LeaveRequestCreate`
(models.py lines 417-421): it carries no `status` field. -/
structure LeaveRequestCreate where
  leave_type : String
  start_date : Nat
  end_date : Nat
  reason : String
deriving DecidableEq

/-- The `__tablename__` values of the table classes of models.py, in source
order (lines 43, 61, 75, 95, 123, 154, 173, 187, 202, 220, 240, 263, 285,
307, 325, 341, 356). -/
def tableNames : List String :=
  ["users", "jurusan", "kelas", "guru", "siswa", "kepala_sekolah",
   "jenis_prestasi", "jenis_pelanggaran", "input_prestasi",
   "input_pelanggaran", "manajemen_sanksi", "jadwal_mengajar", "izin_guru",
   "attendance_guru", "attendance_siswa", "academic_calendar",
   "school_settings"]

/-!
Storage-engine behaviour induced by the schema. Per spec §7, the only
error behaviour defined is what the storage engine raises for constraint
violations; an insert into a table checks exactly the `unique=True`
declarations of that table in models.py and otherwise appends the row,
assigning the auto-increment identity key. Referential integrity is
delegated to the storage engine (spec §3) and modelled as a predicate on
stores, not as an insert-time check.
-/

/-- Insert into `users`: rejects a duplicate `username` or `email`
(both fields are `unique=True`, models.py lines 46-47). -/
def insertUser (s : List User) (u : User) : Except String (List User) :=
  if s.any (fun x => x.username == u.username || x.email == u.email) then
    Except.error "UNIQUE constraint failed: users.username or users.email"
  else
    Except.ok (s ++ [{ u with id := some ((s.length : Int) + 1) }])

/-- Insert into `jurusan`: rejects a duplicate `code`
(`unique=True`, models.py line 65). -/
def insertJurusan (s : List Jurusan) (j : Jurusan) : Except String (List Jurusan) :=
  if s.any (fun x => x.code == j.code) then
    Except.error "UNIQUE constraint failed: jurusan.code"
  else
    Except.ok (s ++ [{ j with id := some ((s.length : Int) + 1) }])

/-- Insert into `guru`: rejects a duplicate `user_id` or `nip`
(both fields are `unique=True`, models.py lines 98-99). -/
def insertGuru (s : List Guru) (g : Guru) : Except String (List Guru) :=
  if s.any (fun x => x.user_id == g.user_id || x.nip == g.nip) then
    Except.error "UNIQUE constraint failed: guru.user_id or guru.nip"
  else
    Except.ok (s ++ [{ g with id := some ((s.length : Int) + 1) }])

/-- Insert into `siswa`: rejects a duplicate `user_id`, `nis` or `nisn`
(all three fields are `unique=True`, models.py lines 126-128). -/
def insertSiswa (s : List Siswa) (w : Siswa) : Except String (List Siswa) :=
  if s.any (fun x => x.user_id == w.user_id || x.nis == w.nis || x.nisn == w.nisn) then
    Except.error "UNIQUE constraint failed: siswa.user_id or siswa.nis or siswa.nisn"
  else
    Except.ok (s ++ [{ w with id := some ((s.length : Int) + 1) }])

/-- Insert into `jenis_pelanggaran`: no field of this table is declared
unique and no range constraint exists on `severity_level`
(models.py lines 186-195), so every insert succeeds. -/
def insertJenisPelanggaran (s : List JenisPelanggaran) (j : JenisPelanggaran) :
    Except String (List JenisPelanggaran) :=
  Except.ok (s ++ [{ j with id := some ((s.length : Int) + 1) }])

/-- Insert into `manajemen_sanksi`: rejects a duplicate `violation_id`
(`unique=True`, models.py line 244). -/
def insertManajemenSanksi (s : List ManajemenSanksi) (m : ManajemenSanksi) :
    Except String (List ManajemenSanksi) :=
  if s.any (fun x => x.violation_id == m.violation_id) then
    Except.error "UNIQUE constraint failed: manajemen_sanksi.violation_id"
  else
    Except.ok (s ++ [{ m with id := some ((s.length : Int) + 1) }])

/-- Insert into `jadwal_mengajar`: no field of this table is declared
unique and no range constraint exists on `day_of_week` or `semester`
(models.py lines 262-276), so every insert succeeds. -/
def insertJadwalMengajar (s : List JadwalMengajar) (j : JadwalMengajar) :
    Except String (List JadwalMengajar) :=
  Except.ok (s ++ [{ j with id := some ((s.length : Int) + 1) }])

/-- Insert into `attendance_guru`: no field of this table is declared
unique (models.py lines 306-318), so every insert succeeds. -/
def insertAttendanceGuru (s : List AttendanceGuru) (a : AttendanceGuru) :
    Except String (List AttendanceGuru) :=
  Except.ok (s ++ [{ a with id := some ((s.length : Int) + 1) }])

/-- Insert into `attendance_siswa`: no field of this table is declared
unique (models.py lines 324-333), so every insert succeeds. -/
def insertAttendanceSiswa (s : List AttendanceSiswa) (a : AttendanceSiswa) :
    Except String (List AttendanceSiswa) :=
  Except.ok (s ++ [{ a with id := some ((s.length : Int) + 1) }])

/-- Applies an insert as the storage engine does: a failed insert leaves
the store unchanged. -/
def applyInsert {α : Type} (ins : List α → α → Except String (List α))
    (s : List α) (r : α) : List α :=
  match ins s r with
  | Except.ok s' => s'
  | Except.error _ => s

/-- The stores reachable from the empty table by successful inserts
(spec §3 lifecycle: all entities are created via insert; no deletion
policy is defined). -/
inductive Reach {α : Type} (ins : List α → α → Except String (List α)) :
    List α → Prop
  | nil : Reach ins []
  | step (s : List α) (r : α) (s' : List α) :
      Reach ins s → ins s r = Except.ok s' → Reach ins s'

/-- Referential integrity of `guru.user_id` (`foreign_key="users.id"`,
models.py line 98), delegated to the storage engine per spec §3. -/
def guruRefIntact (users : List User) (gurus : List Guru) : Prop :=
  ∀ g ∈ gurus, ∃ u ∈ users, u.id = some g.user_id

/-!
Decimal-column storage. A `Decimal` column of scale `p`
(`decimal_places=p` in models.py) stores values as integer multiples of
`10 ^ (-p)`; writing a value quantizes it to that scale.
-/

/-- A rational value is representable at `places` decimal digits when
scaling it by `10 ^ places` yields an integer. -/
def hasDecimalPlaces (places : Nat) (q : ℚ) : Prop :=
  (q * (10 : ℚ) ^ places).den = 1

/-- Quantizes a value to `places` decimal digits, as a `Decimal` column
of that scale does on write. -/
def quantizeDec (places : Nat) (q : ℚ) : ℚ :=
  ((round (q * (10 : ℚ) ^ places) : ℤ) : ℚ) / (10 : ℚ) ^ places

/-- Writing a `Siswa` row quantizes `current_points` to scale 2
(`decimal_places=2`, models.py line 139). -/
def storeSiswa (s : Siswa) : Siswa :=
  { s with current_points := quantizeDec 2 s.current_points }

/-- Writing a `JenisPrestasi` row quantizes `points` to scale 2
(`decimal_places=2`, models.py line 178). -/
def storeJenisPrestasi (j : JenisPrestasi) : JenisPrestasi :=
  { j with points := quantizeDec 2 j.points }

/-- Writing an `InputPrestasi` row quantizes `points_awarded` to scale 2
(`decimal_places=2`, models.py line 211). -/
def storeInputPrestasi (r : InputPrestasi) : InputPrestasi :=
  { r with points_awarded := quantizeDec 2 r.points_awarded }

/-- Writing an `InputPelanggaran` row quantizes `points_deducted` to
scale 2 (`decimal_places=2`, models.py line 229). -/
def storeInputPelanggaran (r : InputPelanggaran) : InputPelanggaran :=
  { r with points_deducted := quantizeDec 2 r.points_deducted }

/-- Writing an `AttendanceGuru` row quantizes `location_lat` and
`location_lng` to scale 6 (`decimal_places=6`, models.py lines 315-316). -/
def storeAttendanceGuru (a : AttendanceGuru) : AttendanceGuru :=
  { a with location_lat := a.location_lat.map (quantizeDec 6),
           location_lng := a.location_lng.map (quantizeDec 6) }

/-- Writing a `SchoolSettings` row quantizes `geofence_lat` and
`geofence_lng` to scale 6 (`decimal_places=6`, models.py lines 366-367). -/
def storeSchoolSettings (s : SchoolSettings) : SchoolSettings :=
  { s with geofence_lat := s.geofence_lat.map (quantizeDec 6),
           geofence_lng := s.geofence_lng.map (quantizeDec 6) }

/-!
In-place update model. models.py contains no update logic; per spec §3
lifecycle, entities are "updated via in-place field mutation with an
updated-timestamp refresh (where the field exists)". The entities with an
`updated_at` field are User, Guru, Siswa, ManajemenSanksi, IzinGuru and
SchoolSettings. A patch carries, per mutable field, either `none` (field
not written) or `some v` (field written with `v`).
-/

/-- Fields of a `users` row an in-place mutation may write. -/
structure UserPatch where
  username : Option String
  email : Option String
  password_hash : Option String
  role : Option UserRole
  is_active : Option Bool
deriving DecidableEq

/-- Modelled from the spec: update logic is absent from src/ (only
models.py is provided); spec §3 lifecycle says rows are updated via
in-place field mutation with an updated-timestamp refresh. Writes the
patched fields of a `users` row and refreshes `updated_at` to `now`. -/
def updateUser (u : User) (p : UserPatch) (now : Nat) : User :=
  { id := u.id
    username := p.username.getD u.username
    email := p.email.getD u.email
    password_hash := p.password_hash.getD u.password_hash
    role := p.role.getD u.role
    is_active := p.is_active.getD u.is_active
    created_at := u.created_at
    updated_at := now }

/-- Fields of a `guru` row an in-place mutation may write. -/
structure GuruPatch where
  user_id : Option Int
  nip : Option String
  name : Option String
  gender : Option Gender
  phone : Option String
  address : Option String
  birth_date : Option Nat
  birth_place : Option String
  education : Option String
  position : Option String
  hire_date : Option Nat
  is_active : Option Bool
deriving DecidableEq

/-- Modelled from the spec: update logic is absent from src/; spec §3
lifecycle. Writes the patched fields of a `guru` row and refreshes
`updated_at` to `now`. -/
def updateGuru (g : Guru) (p : GuruPatch) (now : Nat) : Guru :=
  { id := g.id
    user_id := p.user_id.getD g.user_id
    nip := p.nip.getD g.nip
    name := p.name.getD g.name
    gender := p.gender.getD g.gender
    phone := p.phone.getD g.phone
    address := p.address.getD g.address
    birth_date := p.birth_date.getD g.birth_date
    birth_place := p.birth_place.getD g.birth_place
    education := p.education.getD g.education
    position := p.position.getD g.position
    hire_date := p.hire_date.getD g.hire_date
    is_active := p.is_active.getD g.is_active
    created_at := g.created_at
    updated_at := now }

/-- Fields of a `siswa` row an in-place mutation may write. -/
structure SiswaPatch where
  user_id : Option Int
  nis : Option String
  nisn : Option String
  name : Option String
  gender : Option Gender
  phone : Option String
  address : Option String
  birth_date : Option Nat
  birth_place : Option String
  kelas_id : Option (Option Int)
  parent_name : Option String
  parent_phone : Option String
  enrollment_date : Option Nat
  current_points : Option ℚ
  is_active : Option Bool
deriving DecidableEq

/-- Modelled from the spec: update logic is absent from src/; spec §3
lifecycle. Writes the patched fields of a `siswa` row and refreshes
`updated_at` to `now`. -/
def updateSiswa (w : Siswa) (p : SiswaPatch) (now : Nat) : Siswa :=
  { id := w.id
    user_id := p.user_id.getD w.user_id
    nis := p.nis.getD w.nis
    nisn := p.nisn.getD w.nisn
    name := p.name.getD w.name
    gender := p.gender.getD w.gender
    phone := p.phone.getD w.phone
    address := p.address.getD w.address
    birth_date := p.birth_date.getD w.birth_date
    birth_place := p.birth_place.getD w.birth_place
    kelas_id := p.kelas_id.getD w.kelas_id
    parent_name := p.parent_name.getD w.parent_name
    parent_phone := p.parent_phone.getD w.parent_phone
    enrollment_date := p.enrollment_date.getD w.enrollment_date
    current_points := p.current_points.getD w.current_points
    is_active := p.is_active.getD w.is_active
    created_at := w.created_at
    updated_at := now }

/-- Fields of a `manajemen_sanksi` row an in-place mutation may write. -/
structure ManajemenSanksiPatch where
  siswa_id : Option Int
  violation_id : Option Int
  initiated_by_id : Option Int
  sanction_type : Option String
  sanction_description : Option String
  status : Option SanctionStatus
  start_date : Option (Option Nat)
  end_date : Option (Option Nat)
  notes : Option String
deriving DecidableEq

/-- Modelled from the spec: update logic is absent from src/; spec §3
lifecycle. Writes the patched fields of a `manajemen_sanksi` row and
refreshes `updated_at` to `now`. -/
def updateManajemenSanksi (m : ManajemenSanksi) (p : ManajemenSanksiPatch)
    (now : Nat) : ManajemenSanksi :=
  { id := m.id
    siswa_id := p.siswa_id.getD m.siswa_id
    violation_id := p.violation_id.getD m.violation_id
    initiated_by_id := p.initiated_by_id.getD m.initiated_by_id
    sanction_type := p.sanction_type.getD m.sanction_type
    sanction_description := p.sanction_description.getD m.sanction_description
    status := p.status.getD m.status
    start_date := p.start_date.getD m.start_date
    end_date := p.end_date.getD m.end_date
    notes := p.notes.getD m.notes
    created_at := m.created_at
    updated_at := now }

/-- Fields of an `izin_guru` row an in-place mutation may write. -/
structure IzinGuruPatch where
  guru_id : Option Int
  leave_type : Option String
  start_date : Option Nat
  end_date : Option Nat
  reason : Option String
  status : Option LeaveStatus
  approved_by : Option (Option String)
  approval_date : Option (Option Nat)
  rejection_reason : Option (Option String)
  attachment : Option (Option String)
deriving DecidableEq

/-- Modelled from the spec: update logic is absent from src/; spec §3
lifecycle. Writes the patched fields of an `izin_guru` row and refreshes
`updated_at` to `now`. -/
def updateIzinGuru (i : IzinGuru) (p : IzinGuruPatch) (now : Nat) : IzinGuru :=
  { id := i.id
    guru_id := p.guru_id.getD i.guru_id
    leave_type := p.leave_type.getD i.leave_type
    start_date := p.start_date.getD i.start_date
    end_date := p.end_date.getD i.end_date
    reason := p.reason.getD i.reason
    status := p.status.getD i.status
    approved_by := p.approved_by.getD i.approved_by
    approval_date := p.approval_date.getD i.approval_date
    rejection_reason := p.rejection_reason.getD i.rejection_reason
    attachment := p.attachment.getD i.attachment
    created_at := i.created_at
    updated_at := now }

/-- Fields of a `school_settings` row an in-place mutation may write. -/
structure SchoolSettingsPatch where
  school_name : Option String
  school_address : Option String
  school_phone : Option String
  school_email : Option String
  logo_path : Option (Option String)
  favicon_path : Option (Option String)
  geofence_enabled : Option Bool
  geofence_lat : Option (Option ℚ)
  geofence_lng : Option (Option ℚ)
  geofence_radius : Option (Option Int)
  academic_year : Option String
deriving DecidableEq

/-- Modelled from the spec: update logic is absent from src/; spec §3
lifecycle. Writes the patched fields of a `school_settings` row and
refreshes `updated_at` to `now`. -/
def updateSchoolSettings (s : SchoolSettings) (p : SchoolSettingsPatch)
    (now : Nat) : SchoolSettings :=
  { id := s.id
    school_name := p.school_name.getD s.school_name
    school_address := p.school_address.getD s.school_address
    school_phone := p.school_phone.getD s.school_phone
    school_email := p.school_email.getD s.school_email
    logo_path := p.logo_path.getD s.logo_path
    favicon_path := p.favicon_path.getD s.favicon_path
    geofence_enabled := p.geofence_enabled.getD s.geofence_enabled
    geofence_lat := p.geofence_lat.getD s.geofence_lat
    geofence_lng := p.geofence_lng.getD s.geofence_lng
    geofence_radius := p.geofence_radius.getD s.geofence_radius
    academic_year := p.academic_year.getD s.academic_year
    updated_at := now }

/-- Builds a `manajemen_sanksi` row from a `SanctionCreate` payload.
Fields the create schema does not carry take the defaults declared in
models.py lines 239-253: `status = SanctionStatus.PENDING`, `notes = ""`,
timestamps from the current time. -/
def sanctionFromCreate (c : SanctionCreate) (siswa_id initiated_by_id : Int)
    (now : Nat) : ManajemenSanksi :=
  { id := none
    siswa_id := siswa_id
    violation_id := c.violation_id
    initiated_by_id := initiated_by_id
    sanction_type := c.sanction_type
    sanction_description := c.sanction_description
    status := SanctionStatus.PENDING
    start_date := c.start_date
    end_date := c.end_date
    notes := ""
    created_at := now
    updated_at := now }

/-- Builds an `izin_guru` row from a `LeaveRequestCreate` payload.
Fields the create schema does not carry take the defaults declared in
models.py lines 284-299: `status = LeaveStatus.PENDING`, approval fields
`None`, timestamps from the current time. -/
def izinGuruFromCreate (c : LeaveRequestCreate) (guru_id : Int)
    (now : Nat) : IzinGuru :=
  { id := none
    guru_id := guru_id
    leave_type := c.leave_type
    start_date := c.start_date
    end_date := c.end_date
    reason := c.reason
    status := LeaveStatus.PENDING
    approved_by := none
    approval_date := none
    rejection_reason := none
    attachment := none
    created_at := now
    updated_at := now }

/-!
Concrete rows used to exercise the operations above on explicit inputs.
-/

/-- A concrete `users` row (admin). -/
def userA : User :=
  { id := none, username := "andi", email := "andi@sekolah.id",
    password_hash := "h1", role := UserRole.ADMIN, is_active := true,
    created_at := 10, updated_at := 10 }

/-- A concrete `users` row sharing `userA`'s username, with a fresh email. -/
def userDupUsername : User :=
  { id := none, username := "andi", email := "andi2@sekolah.id",
    password_hash := "h2", role := UserRole.GURU, is_active := true,
    created_at := 11, updated_at := 11 }

/-- A concrete `users` row sharing `userA`'s email, with a fresh username. -/
def userDupEmail : User :=
  { id := none, username := "andi2", email := "andi@sekolah.id",
    password_hash := "h3", role := UserRole.GURU, is_active := true,
    created_at := 12, updated_at := 12 }

/-- A concrete `users` row whose role is `siswa`. -/
def userSiswaRole : User :=
  { id := none, username := "sari", email := "sari@sekolah.id",
    password_hash := "h4", role := UserRole.SISWA, is_active := true,
    created_at := 13, updated_at := 13 }

/-- A concrete `jurusan` row with code "IPA". -/
def jurusanA : Jurusan :=
  { id := none, name := "Ilmu Pengetahuan Alam", code := "IPA",
    description := "", is_active := true, created_at := 10 }

/-- A concrete `jurusan` row sharing `jurusanA`'s code. -/
def jurusanDupCode : Jurusan :=
  { id := none, name := "IPA Unggulan", code := "IPA",
    description := "", is_active := true, created_at := 11 }

/-- A concrete `guru` row referencing user 1. -/
def guruA : Guru :=
  { id := none, user_id := 1, nip := "197001011995121001",
    name := "Pak Budi", gender := Gender.MALE, phone := "0811",
    address := "Jl. Merdeka 1", birth_date := 100, birth_place := "Bandung",
    education := "S1", position := "Guru Matematika", hire_date := 200,
    is_active := true, created_at := 10, updated_at := 10 }

/-- A concrete `guru` row sharing `guruA`'s nip, with a fresh user id. -/
def guruDupNip : Guru :=
  { id := none, user_id := 2, nip := "197001011995121001",
    name := "Bu Citra", gender := Gender.FEMALE, phone := "0812",
    address := "Jl. Merdeka 2", birth_date := 101, birth_place := "Jakarta",
    education := "S2", position := "Guru Fisika", hire_date := 201,
    is_active := true, created_at := 11, updated_at := 11 }

/-- A concrete `siswa` row referencing user 1; `current_points` is 1.23,
a value with exactly 2 decimal digits. -/
def siswaA : Siswa :=
  { id := none, user_id := 1, nis := "10001", nisn := "0051234567",
    name := "Sari", gender := Gender.FEMALE, phone := "0813",
    address := "Jl. Melati 3", birth_date := 102, birth_place := "Surabaya",
    kelas_id := none, parent_name := "Ibu Wati", parent_phone := "0814",
    enrollment_date := 300, current_points := (123 : ℚ) / 100,
    is_active := true, created_at := 10, updated_at := 10 }

/-- A concrete `siswa` row sharing `siswaA`'s nis, fresh user id and nisn. -/
def siswaDupNis : Siswa :=
  { id := none, user_id := 2, nis := "10001", nisn := "0059999999",
    name := "Dewi", gender := Gender.FEMALE, phone := "0815",
    address := "Jl. Melati 4", birth_date := 103, birth_place := "Medan",
    kelas_id := none, parent_name := "Ibu Rina", parent_phone := "0816",
    enrollment_date := 301, current_points := 0,
    is_active := true, created_at := 11, updated_at := 11 }

/-- A concrete `siswa` row sharing `siswaA`'s nisn, fresh user id and nis. -/
def siswaDupNisn : Siswa :=
  { id := none, user_id := 3, nis := "10002", nisn := "0051234567",
    name := "Rudi", gender := Gender.MALE, phone := "0817",
    address := "Jl. Melati 5", birth_date := 104, birth_place := "Padang",
    kelas_id := none, parent_name := "Pak Joko", parent_phone := "0818",
    enrollment_date := 302, current_points := 0,
    is_active := true, created_at := 12, updated_at := 12 }

/-- A concrete `manajemen_sanksi` row referencing violation 1. -/
def sanksiA : ManajemenSanksi :=
  { id := none, siswa_id := 1, violation_id := 1, initiated_by_id := 1,
    sanction_type := "Teguran", sanction_description := "Teguran lisan",
    status := SanctionStatus.PENDING, start_date := none, end_date := none,
    notes := "", created_at := 10, updated_at := 10 }

/-- A second concrete `manajemen_sanksi` row referencing the same
violation 1. -/
def sanksiDupViolation : ManajemenSanksi :=
  { id := none, siswa_id := 1, violation_id := 1, initiated_by_id := 2,
    sanction_type := "Skorsing", sanction_description := "Skorsing 3 hari",
    status := SanctionStatus.PENDING, start_date := some 400,
    end_date := some 403, notes := "", created_at := 11, updated_at := 11 }

/-- A concrete `attendance_guru` row for teacher 1 on day 500; its
geolocation values have at most 6 decimal digits. -/
def attGuruA : AttendanceGuru :=
  { id := none, guru_id := 1, date := 500, status := AttendanceStatus.PRESENT,
    check_in := some 5001, check_out := some 5009,
    location_lat := some ((-6543210 : ℚ) / 1000000),
    location_lng := some ((106816666 : ℚ) / 1000000),
    notes := "", created_at := 10 }

/-- A second concrete `attendance_guru` row for the same teacher 1 on the
same day 500. -/
def attGuruB : AttendanceGuru :=
  { id := none, guru_id := 1, date := 500, status := AttendanceStatus.LATE,
    check_in := some 5003, check_out := none,
    location_lat := none, location_lng := none,
    notes := "terlambat", created_at := 11 }

/-- A concrete `attendance_siswa` row for student 1 on day 500. -/
def attSiswaA : AttendanceSiswa :=
  { id := none, siswa_id := 1, date := 500,
    status := AttendanceStatus.PRESENT, notes := "",
    recorded_by := "Pak Budi", created_at := 10 }

/-- A second concrete `attendance_siswa` row for the same student 1 on the
same day 500. -/
def attSiswaB : AttendanceSiswa :=
  { id := none, siswa_id := 1, date := 500,
    status := AttendanceStatus.SICK, notes := "sakit",
    recorded_by := "Bu Citra", created_at := 11 }

/-- A concrete `jenis_pelanggaran` row whose `severity_level` is 6,
outside the 1-5 scale named in the source comment. -/
def jenisPelanggaranSeverity6 : JenisPelanggaran :=
  { id := none, name := "Membolos", description := "",
    points_deducted := 10, severity_level := 6, is_active := true,
    created_at := 10 }

/-- A concrete `jadwal_mengajar` row whose `day_of_week` is 8 and whose
`semester` is 3, outside the ranges named in the source comments. -/
def jadwalOutOfRange : JadwalMengajar :=
  { id := none, guru_id := 1, kelas_id := 1, subject := "Matematika",
    day_of_week := 8, start_time := 700, end_time := 800,
    academic_year := "2023/2024", semester := 3, cluster := "A",
    is_active := true, created_at := 10 }

/-- A concrete `jenis_prestasi` row; `points` is 1.25, a value with
exactly 2 decimal digits. -/
def jenisPrestasiA : JenisPrestasi :=
  { id := none, name := "Juara Olimpiade", description := "",
    points := (125 : ℚ) / 100, is_active := true, created_at := 10 }

/-- A concrete `input_prestasi` row; `points_awarded` is 7.5, a value
with at most 2 decimal digits. -/
def inputPrestasiA : InputPrestasi :=
  { id := none, siswa_id := 1, jenis_prestasi_id := 1,
    achievement_date := 600, description := "Juara 1",
    evidence := none, verified := false,
    points_awarded := (75 : ℚ) / 10, created_at := 10 }

/-- A concrete `input_pelanggaran` row; `points_deducted` is 10.01, a
value with exactly 2 decimal digits. -/
def inputPelanggaranA : InputPelanggaran :=
  { id := none, siswa_id := 1, jenis_pelanggaran_id := 1,
    violation_date := 600, description := "Terlambat",
    evidence := none, reported_by := "Pak Budi",
    points_deducted := (1001 : ℚ) / 100, created_at := 10 }

/-- A concrete `school_settings` row; its geofence coordinates have at
most 6 decimal digits. -/
def schoolSettingsA : SchoolSettings :=
  { id := none, school_name := "SMA Negeri 1",
    school_address := "Jl. Pendidikan 1", school_phone := "021",
    school_email := "info@sekolah.id", logo_path := none,
    favicon_path := none, geofence_enabled := true,
    geofence_lat := some ((-6200001 : ℚ) / 1000000),
    geofence_lng := some ((106816666 : ℚ) / 1000000),
    geofence_radius := some 100, academic_year := "2023/2024",
    updated_at := 10 }

/-- A concrete `izin_guru` row. -/
def izinA : IzinGuru :=
  { id := none, guru_id := 1, leave_type := "sick", start_date := 700,
    end_date := 702, reason := "demam", status := LeaveStatus.PENDING,
    approved_by := none, approval_date := none, rejection_reason := none,
    attachment := none, created_at := 10, updated_at := 10 }

/-- The empty `users` patch: no field is written. -/
def userPatchNone : UserPatch := ⟨none, none, none, none, none⟩

/-- The empty `guru` patch: no field is written. -/
def guruPatchNone : GuruPatch :=
  ⟨none, none, none, none, none, none, none, none, none, none, none, none⟩

/-- The empty `siswa` patch: no field is written. -/
def siswaPatchNone : SiswaPatch :=
  ⟨none, none, none, none, none, none, none, none, none, none, none, none,
   none, none, none⟩

/-- The empty `manajemen_sanksi` patch: no field is written. -/
def sanksiPatchNone : ManajemenSanksiPatch :=
  ⟨none, none, none, none, none, none, none, none, none⟩

/-- The empty `izin_guru` patch: no field is written. -/
def izinPatchNone : IzinGuruPatch :=
  ⟨none, none, none, none, none, none, none, none, none, none⟩

/-- The empty `school_settings` patch: no field is written. -/
def settingsPatchNone : SchoolSettingsPatch :=
  ⟨none, none, none, none, none, none, none, none, none, none, none⟩

/-- A concrete `SanctionCreate` payload (carries no status field). -/
def sanctionCreateA : SanctionCreate :=
  { violation_id := 1, sanction_type := "Teguran",
    sanction_description := "Teguran lisan", start_date := none,
    end_date := none }

/-- A concrete `LeaveRequestCreate` payload (carries no status field). -/
def leaveCreateA : LeaveRequestCreate :=
  { leave_type := "sick", start_date := 700, end_date := 702,
    reason := "demam" }

/-!
Helper lemmas: characterization of successful inserts and the uniqueness
invariants they maintain over reachable stores.
-/

theorem insertUser_ok_elim (s : List User) (u : User) (s' : List User)
    (h : insertUser s u = Except.ok s') :
    s' = s ++ [{ u with id := some ((s.length : Int) + 1) }] ∧
    ∀ x ∈ s, x.username ≠ u.username ∧ x.email ≠ u.email := by
  unfold insertUser at h
  split at h
  · exact Except.noConfusion h
  · next hc =>
    injection h with h
    subst h
    refine ⟨rfl, fun x hx => ?_⟩
    simp only [List.any_eq_true, Bool.or_eq_true, beq_iff_eq, not_exists] at hc
    have := hc x
    simp only [hx, true_and] at this
    exact not_or.mp this

theorem insertJurusan_ok_elim (s : List Jurusan) (j : Jurusan) (s' : List Jurusan)
    (h : insertJurusan s j = Except.ok s') :
    s' = s ++ [{ j with id := some ((s.length : Int) + 1) }] ∧
    ∀ x ∈ s, x.code ≠ j.code := by
  unfold insertJurusan at h
  split at h
  · exact Except.noConfusion h
  · next hc =>
    injection h with h
    subst h
    refine ⟨rfl, fun x hx => ?_⟩
    simp only [List.any_eq_true, beq_iff_eq, not_exists] at hc
    have := hc x
    simp only [hx, true_and] at this
    exact this

theorem insertGuru_ok_elim (s : List Guru) (g : Guru) (s' : List Guru)
    (h : insertGuru s g = Except.ok s') :
    s' = s ++ [{ g with id := some ((s.length : Int) + 1) }] ∧
    ∀ x ∈ s, x.user_id ≠ g.user_id ∧ x.nip ≠ g.nip := by
  unfold insertGuru at h
  split at h
  · exact Except.noConfusion h
  · next hc =>
    injection h with h
    subst h
    refine ⟨rfl, fun x hx => ?_⟩
    simp only [List.any_eq_true, Bool.or_eq_true, beq_iff_eq, not_exists] at hc
    have := hc x
    simp only [hx, true_and] at this
    exact not_or.mp this

theorem insertSiswa_ok_elim (s : List Siswa) (w : Siswa) (s' : List Siswa)
    (h : insertSiswa s w = Except.ok s') :
    s' = s ++ [{ w with id := some ((s.length : Int) + 1) }] ∧
    ∀ x ∈ s, x.user_id ≠ w.user_id ∧ x.nis ≠ w.nis ∧ x.nisn ≠ w.nisn := by
  unfold insertSiswa at h
  split at h
  · exact Except.noConfusion h
  · next hc =>
    injection h with h
    subst h
    refine ⟨rfl, fun x hx => ?_⟩
    simp only [List.any_eq_true, Bool.or_eq_true, beq_iff_eq, not_exists] at hc
    have := hc x
    simp only [hx, true_and] at this
    have h1 := not_or.mp this
    have h2 := not_or.mp h1.1
    exact ⟨h2.1, h2.2, h1.2⟩

theorem insertManajemenSanksi_ok_elim (s : List ManajemenSanksi)
    (m : ManajemenSanksi) (s' : List ManajemenSanksi)
    (h : insertManajemenSanksi s m = Except.ok s') :
    s' = s ++ [{ m with id := some ((s.length : Int) + 1) }] ∧
    ∀ x ∈ s, x.violation_id ≠ m.violation_id := by
  unfold insertManajemenSanksi at h
  split at h
  · exact Except.noConfusion h
  · next hc =>
    injection h with h
    subst h
    refine ⟨rfl, fun x hx => ?_⟩
    simp only [List.any_eq_true, beq_iff_eq, not_exists] at hc
    have := hc x
    simp only [hx, true_and] at this
    exact this

theorem reach_users_unique (s : List User) (h : Reach insertUser s) :
    List.Pairwise (fun a b : User => a.username ≠ b.username ∧ a.email ≠ b.email) s := by
  induction h with
  | nil => exact List.Pairwise.nil
  | step t r t' _ hok ih =>
    obtain ⟨rfl, hfresh⟩ := insertUser_ok_elim t r t' hok
    refine List.pairwise_append.mpr ⟨ih, List.pairwise_singleton _ _, ?_⟩
    intro a ha b hb
    simp only [List.mem_singleton] at hb
    subst hb
    exact hfresh a ha

theorem reach_jurusan_unique (s : List Jurusan) (h : Reach insertJurusan s) :
    List.Pairwise (fun a b : Jurusan => a.code ≠ b.code) s := by
  induction h with
  | nil => exact List.Pairwise.nil
  | step t r t' _ hok ih =>
    obtain ⟨rfl, hfresh⟩ := insertJurusan_ok_elim t r t' hok
    refine List.pairwise_append.mpr ⟨ih, List.pairwise_singleton _ _, ?_⟩
    intro a ha b hb
    simp only [List.mem_singleton] at hb
    subst hb
    exact hfresh a ha

theorem reach_guru_unique (s : List Guru) (h : Reach insertGuru s) :
    List.Pairwise (fun a b : Guru => a.user_id ≠ b.user_id ∧ a.nip ≠ b.nip) s := by
  induction h with
  | nil => exact List.Pairwise.nil
  | step t r t' _ hok ih =>
    obtain ⟨rfl, hfresh⟩ := insertGuru_ok_elim t r t' hok
    refine List.pairwise_append.mpr ⟨ih, List.pairwise_singleton _ _, ?_⟩
    intro a ha b hb
    simp only [List.mem_singleton] at hb
    subst hb
    exact hfresh a ha

theorem reach_siswa_unique (s : List Siswa) (h : Reach insertSiswa s) :
    List.Pairwise
      (fun a b : Siswa => a.user_id ≠ b.user_id ∧ a.nis ≠ b.nis ∧ a.nisn ≠ b.nisn) s := by
  induction h with
  | nil => exact List.Pairwise.nil
  | step t r t' _ hok ih =>
    obtain ⟨rfl, hfresh⟩ := insertSiswa_ok_elim t r t' hok
    refine List.pairwise_append.mpr ⟨ih, List.pairwise_singleton _ _, ?_⟩
    intro a ha b hb
    simp only [List.mem_singleton] at hb
    subst hb
    exact hfresh a ha

theorem reach_sanksi_unique (s : List ManajemenSanksi)
    (h : Reach insertManajemenSanksi s) :
    List.Pairwise (fun a b : ManajemenSanksi => a.violation_id ≠ b.violation_id) s := by
  induction h with
  | nil => exact List.Pairwise.nil
  | step t r t' _ hok ih =>
    obtain ⟨rfl, hfresh⟩ := insertManajemenSanksi_ok_elim t r t' hok
    refine List.pairwise_append.mpr ⟨ih, List.pairwise_singleton _ _, ?_⟩
    intro a ha b hb
    simp only [List.mem_singleton] at hb
    subst hb
    exact hfresh a ha

theorem insertUser_dup_fails (s : List User) (u x : User) (hx : x ∈ s)
    (h : x.username = u.username ∨ x.email = u.email) :
    ∃ e, insertUser s u = Except.error e := by
  have hc : s.any (fun y => y.username == u.username || y.email == u.email) = true :=
    List.any_eq_true.mpr ⟨x, hx, by simp only [Bool.or_eq_true, beq_iff_eq]; exact h⟩
  exact ⟨_, by unfold insertUser; rw [if_pos hc]⟩

theorem insertJurusan_dup_fails (s : List Jurusan) (j x : Jurusan) (hx : x ∈ s)
    (h : x.code = j.code) :
    ∃ e, insertJurusan s j = Except.error e := by
  have hc : s.any (fun y => y.code == j.code) = true :=
    List.any_eq_true.mpr ⟨x, hx, by simp only [beq_iff_eq]; exact h⟩
  exact ⟨_, by unfold insertJurusan; rw [if_pos hc]⟩

theorem insertGuru_dup_fails (s : List Guru) (g x : Guru) (hx : x ∈ s)
    (h : x.user_id = g.user_id ∨ x.nip = g.nip) :
    ∃ e, insertGuru s g = Except.error e := by
  have hc : s.any (fun y => y.user_id == g.user_id || y.nip == g.nip) = true :=
    List.any_eq_true.mpr ⟨x, hx, by simp only [Bool.or_eq_true, beq_iff_eq]; exact h⟩
  exact ⟨_, by unfold insertGuru; rw [if_pos hc]⟩

theorem insertSiswa_dup_fails (s : List Siswa) (w x : Siswa) (hx : x ∈ s)
    (h : x.user_id = w.user_id ∨ x.nis = w.nis ∨ x.nisn = w.nisn) :
    ∃ e, insertSiswa s w = Except.error e := by
  have hc : s.any (fun y => y.user_id == w.user_id || y.nis == w.nis || y.nisn == w.nisn) = true :=
    List.any_eq_true.mpr ⟨x, hx, by
      simp only [Bool.or_eq_true, beq_iff_eq]
      rcases h with h | h | h
      · exact Or.inl (Or.inl h)
      · exact Or.inl (Or.inr h)
      · exact Or.inr h⟩
  exact ⟨_, by unfold insertSiswa; rw [if_pos hc]⟩

theorem insertManajemenSanksi_dup_fails (s : List ManajemenSanksi)
    (m x : ManajemenSanksi) (hx : x ∈ s) (h : x.violation_id = m.violation_id) :
    insertManajemenSanksi s m =
      Except.error "UNIQUE constraint failed: manajemen_sanksi.violation_id" := by
  have hc : s.any (fun y => y.violation_id == m.violation_id) = true :=
    List.any_eq_true.mpr ⟨x, hx, by simp only [beq_iff_eq]; exact h⟩
  unfold insertManajemenSanksi
  rw [if_pos hc]

theorem insertManajemenSanksi_fresh_ok (s : List ManajemenSanksi)
    (m : ManajemenSanksi) (h : ∀ x ∈ s, x.violation_id ≠ m.violation_id) :
    insertManajemenSanksi s m =
      Except.ok (s ++ [{ m with id := some ((s.length : Int) + 1) }]) := by
  have hc : s.any (fun y => y.violation_id == m.violation_id) = false := by
    simp only [List.any_eq_false, beq_iff_eq]
    exact h
  unfold insertManajemenSanksi
  rw [if_neg (by simp [hc])]

theorem quantizeDec_eq_self (p : Nat) (q : ℚ) (h : hasDecimalPlaces p q) :
    quantizeDec p q = q := by
  unfold hasDecimalPlaces at h
  unfold quantizeDec
  have h10 : ((10 : ℚ) ^ p) ≠ 0 := pow_ne_zero _ (by norm_num)
  have hr : (((q * (10 : ℚ) ^ p).num : ℤ) : ℚ) = q * (10 : ℚ) ^ p :=
    (Rat.den_eq_one_iff _).mp h
  have hround : round (q * (10 : ℚ) ^ p) = (q * (10 : ℚ) ^ p).num := by
    conv_lhs => rw [← hr]
    exact round_intCast _
  calc ((round (q * (10 : ℚ) ^ p) : ℤ) : ℚ) / (10 : ℚ) ^ p
      = (((q * (10 : ℚ) ^ p).num : ℤ) : ℚ) / (10 : ℚ) ^ p := by rw [hround]
    _ = (q * (10 : ℚ) ^ p) / (10 : ℚ) ^ p := by rw [hr]
    _ = q := mul_div_cancel_right₀ q h10

theorem hasDecimalPlaces_of_eq_intCast (p : Nat) (q : ℚ) (n : ℤ)
    (h : q * (10 : ℚ) ^ p = (n : ℚ)) : hasDecimalPlaces p q := by
  unfold hasDecimalPlaces
  rw [h]
  exact Rat.den_intCast n

/-- C1: for every field declared `unique=True` in models.py
(User.username, User.email, Guru.nip, Siswa.nis, Siswa.nisn,
Jurusan.code), inserting a second row whose value for that field equals
an existing row's value fails with a uniqueness-violation error, and in
every reachable store no two rows share that field's value. -/
theorem claim_C1_unique_fields :
    (∀ (s : List User) (u x : User), x ∈ s → x.username = u.username →
      ∃ e, insertUser s u = Except.error e) ∧
    (∀ (s : List User) (u x : User), x ∈ s → x.email = u.email →
      ∃ e, insertUser s u = Except.error e) ∧
    (∀ (s : List Guru) (g x : Guru), x ∈ s → x.nip = g.nip →
      ∃ e, insertGuru s g = Except.error e) ∧
    (∀ (s : List Siswa) (w x : Siswa), x ∈ s → x.nis = w.nis →
      ∃ e, insertSiswa s w = Except.error e) ∧
    (∀ (s : List Siswa) (w x : Siswa), x ∈ s → x.nisn = w.nisn →
      ∃ e, insertSiswa s w = Except.error e) ∧
    (∀ (s : List Jurusan) (j x : Jurusan), x ∈ s → x.code = j.code →
      ∃ e, insertJurusan s j = Except.error e) ∧
    (∀ s, Reach insertUser s →
      List.Pairwise (fun a b : User =>
        a.username ≠ b.username ∧ a.email ≠ b.email) s) ∧
    (∀ s, Reach insertGuru s →
      List.Pairwise (fun a b : Guru => a.nip ≠ b.nip) s) ∧
    (∀ s, Reach insertSiswa s →
      List.Pairwise (fun a b : Siswa => a.nis ≠ b.nis ∧ a.nisn ≠ b.nisn) s) ∧
    (∀ s, Reach insertJurusan s →
      List.Pairwise (fun a b : Jurusan => a.code ≠ b.code) s) := by
  refine ⟨?_, ?_, ?_, ?_, ?_, ?_, ?_, ?_, ?_, ?_⟩
  · exact fun s u x hx he => insertUser_dup_fails s u x hx (Or.inl he)
  · exact fun s u x hx he => insertUser_dup_fails s u x hx (Or.inr he)
  · exact fun s g x hx he => insertGuru_dup_fails s g x hx (Or.inr he)
  · exact fun s w x hx he => insertSiswa_dup_fails s w x hx (Or.inr (Or.inl he))
  · exact fun s w x hx he => insertSiswa_dup_fails s w x hx (Or.inr (Or.inr he))
  · exact fun s j x hx he => insertJurusan_dup_fails s j x hx he
  · exact reach_users_unique
  · exact fun s h => (reach_guru_unique s h).imp (fun hab => hab.2)
  · exact fun s h => (reach_siswa_unique s h).imp (fun hab => hab.2)
  · exact reach_jurusan_unique

/-- Witness for C1 at concrete rows: each duplicate insert fails, and a
concrete reachable store is duplicate-free. -/
theorem claim_C1_unique_fields_witness :
    (∃ e, insertUser [userA] userDupUsername = Except.error e) ∧
    (∃ e, insertUser [userA] userDupEmail = Except.error e) ∧
    (∃ e, insertGuru [guruA] guruDupNip = Except.error e) ∧
    (∃ e, insertSiswa [siswaA] siswaDupNis = Except.error e) ∧
    (∃ e, insertSiswa [siswaA] siswaDupNisn = Except.error e) ∧
    (∃ e, insertJurusan [jurusanA] jurusanDupCode = Except.error e) ∧
    List.Pairwise (fun a b : User =>
        a.username ≠ b.username ∧ a.email ≠ b.email)
      [{ userA with id := some 1 }, { userSiswaRole with id := some 2 }] := by
  obtain ⟨h1, h2, h3, h4, h5, h6, h7, _, _, _⟩ := claim_C1_unique_fields
  refine ⟨?_, ?_, ?_, ?_, ?_, ?_, ?_⟩
  · exact h1 [userA] userDupUsername userA (List.mem_singleton.mpr rfl) rfl
  · exact h2 [userA] userDupEmail userA (List.mem_singleton.mpr rfl) rfl
  · exact h3 [guruA] guruDupNip guruA (List.mem_singleton.mpr rfl) rfl
  · exact h4 [siswaA] siswaDupNis siswaA (List.mem_singleton.mpr rfl) rfl
  · exact h5 [siswaA] siswaDupNisn siswaA (List.mem_singleton.mpr rfl) rfl
  · exact h6 [jurusanA] jurusanDupCode jurusanA (List.mem_singleton.mpr rfl) rfl
  · have e1 : insertUser [] userA = Except.ok [{ userA with id := some 1 }] := rfl
    have r1 : Reach insertUser [{ userA with id := some 1 }] :=
      Reach.step [] userA _ Reach.nil e1
    have e2 : insertUser [{ userA with id := some 1 }] userSiswaRole =
        Except.ok [{ userA with id := some 1 },
          { userSiswaRole with id := some 2 }] := rfl
    have r2 : Reach insertUser
        [{ userA with id := some 1 }, { userSiswaRole with id := some 2 }] :=
      Reach.step _ userSiswaRole _ r1 e2
    exact h7 _ r2

/-- C2: a `manajemen_sanksi` insert referencing a fresh violation id
succeeds; a second insert whose `violation_id` equals an existing row's
fails with a uniqueness-violation error and leaves the store unchanged;
and in every reachable store no two sanctions share a `violation_id`. -/
theorem claim_C2_sanction_per_violation :
    (∀ (s : List ManajemenSanksi) (m : ManajemenSanksi),
      (∀ x ∈ s, x.violation_id ≠ m.violation_id) →
      insertManajemenSanksi s m =
        Except.ok (s ++ [{ m with id := some ((s.length : Int) + 1) }])) ∧
    (∀ (s : List ManajemenSanksi) (m x : ManajemenSanksi), x ∈ s →
      x.violation_id = m.violation_id →
      (∃ e, insertManajemenSanksi s m = Except.error e) ∧
      applyInsert insertManajemenSanksi s m = s) ∧
    (∀ s, Reach insertManajemenSanksi s →
      List.Pairwise
        (fun a b : ManajemenSanksi => a.violation_id ≠ b.violation_id) s) := by
  refine ⟨insertManajemenSanksi_fresh_ok, ?_, reach_sanksi_unique⟩
  intro s m x hx he
  have herr := insertManajemenSanksi_dup_fails s m x hx he
  exact ⟨⟨_, herr⟩, by unfold applyInsert; rw [herr]⟩

/-- Witness for C2 at concrete rows: the first sanction for violation 1
is accepted, the second is rejected and the store is unchanged. -/
theorem claim_C2_sanction_per_violation_witness :
    insertManajemenSanksi [] sanksiA =
      Except.ok [{ sanksiA with id := some 1 }] ∧
    (∃ e, insertManajemenSanksi [{ sanksiA with id := some 1 }]
      sanksiDupViolation = Except.error e) ∧
    applyInsert insertManajemenSanksi [{ sanksiA with id := some 1 }]
      sanksiDupViolation = [{ sanksiA with id := some 1 }] ∧
    List.Pairwise
      (fun a b : ManajemenSanksi => a.violation_id ≠ b.violation_id)
      [{ sanksiA with id := some 1 }] := by
  obtain ⟨h1, h2, h3⟩ := claim_C2_sanction_per_violation
  have hfresh : ∀ x ∈ ([] : List ManajemenSanksi),
      x.violation_id ≠ sanksiA.violation_id := by simp
  have hdup := h2 [{ sanksiA with id := some 1 }] sanksiDupViolation
    { sanksiA with id := some 1 } (List.mem_singleton.mpr rfl) rfl
  have e1 : insertManajemenSanksi [] sanksiA =
      Except.ok [{ sanksiA with id := some 1 }] := rfl
  have r1 : Reach insertManajemenSanksi [{ sanksiA with id := some 1 }] :=
    Reach.step [] sanksiA _ Reach.nil e1
  exact ⟨h1 [] sanksiA hfresh, hdup.1, hdup.2, h3 _ r1⟩

/-- C3 counterexample: the attendance tables declare no uniqueness at
all, so a store holding two distinct records for the same teacher
(resp. student) on the same date is reachable by two successful
inserts — the claimed per-person-per-date invariant fails. -/
theorem claim_C3_counterexample :
    Reach insertAttendanceGuru
      [{ attGuruA with id := some 1 }, { attGuruB with id := some 2 }] ∧
    attGuruA.guru_id = attGuruB.guru_id ∧
    attGuruA.date = attGuruB.date ∧
    ({ attGuruA with id := some 1 } : AttendanceGuru) ≠
      { attGuruB with id := some 2 } ∧
    Reach insertAttendanceSiswa
      [{ attSiswaA with id := some 1 }, { attSiswaB with id := some 2 }] ∧
    attSiswaA.siswa_id = attSiswaB.siswa_id ∧
    attSiswaA.date = attSiswaB.date ∧
    ({ attSiswaA with id := some 1 } : AttendanceSiswa) ≠
      { attSiswaB with id := some 2 } := by
  have eg1 : insertAttendanceGuru [] attGuruA =
      Except.ok [{ attGuruA with id := some 1 }] := rfl
  have eg2 : insertAttendanceGuru [{ attGuruA with id := some 1 }] attGuruB =
      Except.ok [{ attGuruA with id := some 1 },
        { attGuruB with id := some 2 }] := rfl
  have es1 : insertAttendanceSiswa [] attSiswaA =
      Except.ok [{ attSiswaA with id := some 1 }] := rfl
  have es2 : insertAttendanceSiswa [{ attSiswaA with id := some 1 }] attSiswaB =
      Except.ok [{ attSiswaA with id := some 1 },
        { attSiswaB with id := some 2 }] := rfl
  refine ⟨Reach.step _ attGuruB _ (Reach.step [] attGuruA _ Reach.nil eg1) eg2,
    rfl, rfl, by decide,
    Reach.step _ attSiswaB _ (Reach.step [] attSiswaA _ Reach.nil es1) es2,
    rfl, rfl, by decide⟩

/-- C3 amended: models.py declares no per-person-per-date uniqueness for
`attendance_guru` or `attendance_siswa` — every insert succeeds
unconditionally, so reachable stores may hold several records for the
same person on the same date. -/
theorem claim_C3_amended_no_per_date_constraint :
    (∀ (s : List AttendanceGuru) (a : AttendanceGuru),
      insertAttendanceGuru s a =
        Except.ok (s ++ [{ a with id := some ((s.length : Int) + 1) }])) ∧
    (∀ (s : List AttendanceSiswa) (a : AttendanceSiswa),
      insertAttendanceSiswa s a =
        Except.ok (s ++ [{ a with id := some ((s.length : Int) + 1) }])) :=
  ⟨fun _ _ => rfl, fun _ _ => rfl⟩

/-- C4 counterexample: a `jenis_pelanggaran` row with `severity_level = 6`
(outside 1-5) is accepted by the schema — no constraint rejects it. -/
theorem claim_C4_counterexample :
    insertJenisPelanggaran [] jenisPelanggaranSeverity6 =
      Except.ok [{ jenisPelanggaranSeverity6 with id := some 1 }] ∧
    jenisPelanggaranSeverity6.severity_level = 6 ∧
    ¬(1 ≤ jenisPelanggaranSeverity6.severity_level ∧
      jenisPelanggaranSeverity6.severity_level ≤ 5) :=
  ⟨rfl, rfl, by decide⟩

/-- C4 amended: `severity_level` is a plain integer column (default 1,
source comment "1-5 scale") with no range constraint in the schema:
every insert succeeds, whatever the severity value. -/
theorem claim_C4_amended_no_severity_constraint :
    ∀ (s : List JenisPelanggaran) (j : JenisPelanggaran),
      insertJenisPelanggaran s j =
        Except.ok (s ++ [{ j with id := some ((s.length : Int) + 1) }]) :=
  fun _ _ => rfl

/-- C5 counterexample: a `jadwal_mengajar` row with `day_of_week = 8`
and `semester = 3` (outside 1-7 and 1-2) is accepted by the schema. -/
theorem claim_C5_counterexample :
    insertJadwalMengajar [] jadwalOutOfRange =
      Except.ok [{ jadwalOutOfRange with id := some 1 }] ∧
    jadwalOutOfRange.day_of_week = 8 ∧
    jadwalOutOfRange.semester = 3 ∧
    ¬(1 ≤ jadwalOutOfRange.day_of_week ∧ jadwalOutOfRange.day_of_week ≤ 7) ∧
    ¬(jadwalOutOfRange.semester = 1 ∨ jadwalOutOfRange.semester = 2) :=
  ⟨rfl, rfl, rfl, by decide, by decide⟩

/-- C5 amended: `day_of_week` and `semester` are plain integer columns
(source comments "1-7 (Monday-Sunday)" and "1 or 2") with no range
constraint in the schema: every insert succeeds, whatever their values. -/
theorem claim_C5_amended_no_range_constraint :
    ∀ (s : List JadwalMengajar) (j : JadwalMengajar),
      insertJadwalMengajar s j =
        Except.ok (s ++ [{ j with id := some ((s.length : Int) + 1) }]) :=
  fun _ _ => rfl

/-- C6: `guru.user_id` and `siswa.user_id` are unique in every reachable
store (each user has at most one teacher profile and at most one student
profile), while the schema places no role-dependent restriction: a
referentially intact store exists in which a user whose role is `siswa`
has a `guru` profile. -/
theorem claim_C6_profile_uniqueness_no_role_check :
    (∀ s, Reach insertGuru s →
      List.Pairwise (fun a b : Guru => a.user_id ≠ b.user_id) s) ∧
    (∀ s, Reach insertSiswa s →
      List.Pairwise (fun a b : Siswa => a.user_id ≠ b.user_id) s) ∧
    (Reach insertUser [{ userSiswaRole with id := some 1 }] ∧
     Reach insertGuru [{ guruA with id := some 1 }] ∧
     guruRefIntact [{ userSiswaRole with id := some 1 }]
       [{ guruA with id := some 1 }] ∧
     ({ userSiswaRole with id := some 1 } : User).role = UserRole.SISWA ∧
     ({ guruA with id := some 1 } : Guru).user_id = 1) := by
  refine ⟨fun s h => (reach_guru_unique s h).imp (fun hab => hab.1),
    fun s h => (reach_siswa_unique s h).imp (fun hab => hab.1),
    ?_, ?_, ?_, rfl, rfl⟩
  · have e1 : insertUser [] userSiswaRole =
        Except.ok [{ userSiswaRole with id := some 1 }] := rfl
    exact Reach.step [] userSiswaRole _ Reach.nil e1
  · have e1 : insertGuru [] guruA =
        Except.ok [{ guruA with id := some 1 }] := rfl
    exact Reach.step [] guruA _ Reach.nil e1
  · intro g hg
    simp only [List.mem_singleton] at hg
    subst hg
    exact ⟨{ userSiswaRole with id := some 1 }, List.mem_singleton.mpr rfl, rfl⟩

/-- Witness for C6 at concrete stores reached by one insert each. -/
theorem claim_C6_profile_uniqueness_no_role_check_witness :
    List.Pairwise (fun a b : Guru => a.user_id ≠ b.user_id)
      [{ guruA with id := some 1 }] ∧
    List.Pairwise (fun a b : Siswa => a.user_id ≠ b.user_id)
      [{ siswaA with id := some 1 }] := by
  obtain ⟨h1, h2, _⟩ := claim_C6_profile_uniqueness_no_role_check
  have e1 : insertGuru [] guruA = Except.ok [{ guruA with id := some 1 }] := rfl
  have e2 : insertSiswa [] siswaA =
      Except.ok [{ siswaA with id := some 1 }] := rfl
  exact ⟨h1 _ (Reach.step [] guruA _ Reach.nil e1),
    h2 _ (Reach.step [] siswaA _ Reach.nil e2)⟩

/-- C7: every decimal value with at most 2 fractional digits round-trips
exactly through the scale-2 point columns (Siswa.current_points,
JenisPrestasi.points, InputPrestasi.points_awarded,
InputPelanggaran.points_deducted), and every value with at most 6
fractional digits round-trips exactly through the scale-6 geolocation
columns (AttendanceGuru.location_lat/lng,
SchoolSettings.geofence_lat/lng). -/
theorem claim_C7_decimal_roundtrip :
    (∀ w : Siswa, hasDecimalPlaces 2 w.current_points →
      (storeSiswa w).current_points = w.current_points) ∧
    (∀ j : JenisPrestasi, hasDecimalPlaces 2 j.points →
      (storeJenisPrestasi j).points = j.points) ∧
    (∀ r : InputPrestasi, hasDecimalPlaces 2 r.points_awarded →
      (storeInputPrestasi r).points_awarded = r.points_awarded) ∧
    (∀ r : InputPelanggaran, hasDecimalPlaces 2 r.points_deducted →
      (storeInputPelanggaran r).points_deducted = r.points_deducted) ∧
    (∀ (a : AttendanceGuru) (q : ℚ), a.location_lat = some q →
      hasDecimalPlaces 6 q → (storeAttendanceGuru a).location_lat = some q) ∧
    (∀ (a : AttendanceGuru) (q : ℚ), a.location_lng = some q →
      hasDecimalPlaces 6 q → (storeAttendanceGuru a).location_lng = some q) ∧
    (∀ (s : SchoolSettings) (q : ℚ), s.geofence_lat = some q →
      hasDecimalPlaces 6 q → (storeSchoolSettings s).geofence_lat = some q) ∧
    (∀ (s : SchoolSettings) (q : ℚ), s.geofence_lng = some q →
      hasDecimalPlaces 6 q → (storeSchoolSettings s).geofence_lng = some q) := by
  refine ⟨fun w h => quantizeDec_eq_self 2 w.current_points h,
    fun j h => quantizeDec_eq_self 2 j.points h,
    fun r h => quantizeDec_eq_self 2 r.points_awarded h,
    fun r h => quantizeDec_eq_self 2 r.points_deducted h,
    ?_, ?_, ?_, ?_⟩
  · intro a q hq h
    show a.location_lat.map (quantizeDec 6) = some q
    rw [hq]
    exact congrArg some (quantizeDec_eq_self 6 q h)
  · intro a q hq h
    show a.location_lng.map (quantizeDec 6) = some q
    rw [hq]
    exact congrArg some (quantizeDec_eq_self 6 q h)
  · intro s q hq h
    show s.geofence_lat.map (quantizeDec 6) = some q
    rw [hq]
    exact congrArg some (quantizeDec_eq_self 6 q h)
  · intro s q hq h
    show s.geofence_lng.map (quantizeDec 6) = some q
    rw [hq]
    exact congrArg some (quantizeDec_eq_self 6 q h)

/-- Witness for C7 at concrete rows: 1.23, 1.25, 7.5, 10.01 round-trip
at scale 2; the concrete geolocations round-trip at scale 6. -/
theorem claim_C7_decimal_roundtrip_witness :
    (storeSiswa siswaA).current_points = siswaA.current_points ∧
    (storeJenisPrestasi jenisPrestasiA).points = jenisPrestasiA.points ∧
    (storeInputPrestasi inputPrestasiA).points_awarded =
      inputPrestasiA.points_awarded ∧
    (storeInputPelanggaran inputPelanggaranA).points_deducted =
      inputPelanggaranA.points_deducted ∧
    (storeAttendanceGuru attGuruA).location_lat =
      some ((-6543210 : ℚ) / 1000000) ∧
    (storeAttendanceGuru attGuruA).location_lng =
      some ((106816666 : ℚ) / 1000000) ∧
    (storeSchoolSettings schoolSettingsA).geofence_lat =
      some ((-6200001 : ℚ) / 1000000) ∧
    (storeSchoolSettings schoolSettingsA).geofence_lng =
      some ((106816666 : ℚ) / 1000000) := by
  obtain ⟨h1, h2, h3, h4, h5, h6, h7, h8⟩ := claim_C7_decimal_roundtrip
  exact ⟨h1 siswaA (hasDecimalPlaces_of_eq_intCast 2 _ 123
      (by norm_num [siswaA])),
    h2 jenisPrestasiA (hasDecimalPlaces_of_eq_intCast 2 _ 125
      (by norm_num [jenisPrestasiA])),
    h3 inputPrestasiA (hasDecimalPlaces_of_eq_intCast 2 _ 750
      (by norm_num [inputPrestasiA])),
    h4 inputPelanggaranA (hasDecimalPlaces_of_eq_intCast 2 _ 1001
      (by norm_num [inputPelanggaranA])),
    h5 attGuruA _ rfl (hasDecimalPlaces_of_eq_intCast 6 _ (-6543210)
      (by norm_num)),
    h6 attGuruA _ rfl (hasDecimalPlaces_of_eq_intCast 6 _ 106816666
      (by norm_num)),
    h7 schoolSettingsA _ rfl (hasDecimalPlaces_of_eq_intCast 6 _ (-6200001)
      (by norm_num)),
    h8 schoolSettingsA _ rfl (hasDecimalPlaces_of_eq_intCast 6 _ 106816666
      (by norm_num))⟩

/-- C8: for every entity with an `updated_at` field (User, Guru, Siswa,
ManajemenSanksi, IzinGuru, SchoolSettings), an in-place field mutation
refreshes `updated_at` to the time of the update and changes no field
other than those written and `updated_at`: the identity key, `created_at`
(where present) and every unwritten field keep their values. -/
theorem claim_C8_update_refresh :
    (∀ (u : User) (p : UserPatch) (now : Nat),
      (updateUser u p now).updated_at = now ∧
      (updateUser u p now).id = u.id ∧
      (updateUser u p now).created_at = u.created_at ∧
      (p.username = none → (updateUser u p now).username = u.username) ∧
      (p.email = none → (updateUser u p now).email = u.email) ∧
      (p.password_hash = none → (updateUser u p now).password_hash = u.password_hash) ∧
      (p.role = none → (updateUser u p now).role = u.role) ∧
      (p.is_active = none → (updateUser u p now).is_active = u.is_active)) ∧
    (∀ (g : Guru) (p : GuruPatch) (now : Nat),
      (updateGuru g p now).updated_at = now ∧
      (updateGuru g p now).id = g.id ∧
      (updateGuru g p now).created_at = g.created_at ∧
      (p.user_id = none → (updateGuru g p now).user_id = g.user_id) ∧
      (p.nip = none → (updateGuru g p now).nip = g.nip) ∧
      (p.name = none → (updateGuru g p now).name = g.name) ∧
      (p.gender = none → (updateGuru g p now).gender = g.gender) ∧
      (p.phone = none → (updateGuru g p now).phone = g.phone) ∧
      (p.address = none → (updateGuru g p now).address = g.address) ∧
      (p.birth_date = none → (updateGuru g p now).birth_date = g.birth_date) ∧
      (p.birth_place = none → (updateGuru g p now).birth_place = g.birth_place) ∧
      (p.education = none → (updateGuru g p now).education = g.education) ∧
      (p.position = none → (updateGuru g p now).position = g.position) ∧
      (p.hire_date = none → (updateGuru g p now).hire_date = g.hire_date) ∧
      (p.is_active = none → (updateGuru g p now).is_active = g.is_active)) ∧
    (∀ (w : Siswa) (p : SiswaPatch) (now : Nat),
      (updateSiswa w p now).updated_at = now ∧
      (updateSiswa w p now).id = w.id ∧
      (updateSiswa w p now).created_at = w.created_at ∧
      (p.user_id = none → (updateSiswa w p now).user_id = w.user_id) ∧
      (p.nis = none → (updateSiswa w p now).nis = w.nis) ∧
      (p.nisn = none → (updateSiswa w p now).nisn = w.nisn) ∧
      (p.name = none → (updateSiswa w p now).name = w.name) ∧
      (p.gender = none → (updateSiswa w p now).gender = w.gender) ∧
      (p.phone = none → (updateSiswa w p now).phone = w.phone) ∧
      (p.address = none → (updateSiswa w p now).address = w.address) ∧
      (p.birth_date = none → (updateSiswa w p now).birth_date = w.birth_date) ∧
      (p.birth_place = none → (updateSiswa w p now).birth_place = w.birth_place) ∧
      (p.kelas_id = none → (updateSiswa w p now).kelas_id = w.kelas_id) ∧
      (p.parent_name = none → (updateSiswa w p now).parent_name = w.parent_name) ∧
      (p.parent_phone = none → (updateSiswa w p now).parent_phone = w.parent_phone) ∧
      (p.enrollment_date = none → (updateSiswa w p now).enrollment_date = w.enrollment_date) ∧
      (p.current_points = none → (updateSiswa w p now).current_points = w.current_points) ∧
      (p.is_active = none → (updateSiswa w p now).is_active = w.is_active)) ∧
    (∀ (m : ManajemenSanksi) (p : ManajemenSanksiPatch) (now : Nat),
      (updateManajemenSanksi m p now).updated_at = now ∧
      (updateManajemenSanksi m p now).id = m.id ∧
      (updateManajemenSanksi m p now).created_at = m.created_at ∧
      (p.siswa_id = none → (updateManajemenSanksi m p now).siswa_id = m.siswa_id) ∧
      (p.violation_id = none → (updateManajemenSanksi m p now).violation_id = m.violation_id) ∧
      (p.initiated_by_id = none → (updateManajemenSanksi m p now).initiated_by_id = m.initiated_by_id) ∧
      (p.sanction_type = none → (updateManajemenSanksi m p now).sanction_type = m.sanction_type) ∧
      (p.sanction_description = none → (updateManajemenSanksi m p now).sanction_description = m.sanction_description) ∧
      (p.status = none → (updateManajemenSanksi m p now).status = m.status) ∧
      (p.start_date = none → (updateManajemenSanksi m p now).start_date = m.start_date) ∧
      (p.end_date = none → (updateManajemenSanksi m p now).end_date = m.end_date) ∧
      (p.notes = none → (updateManajemenSanksi m p now).notes = m.notes)) ∧
    (∀ (i : IzinGuru) (p : IzinGuruPatch) (now : Nat),
      (updateIzinGuru i p now).updated_at = now ∧
      (updateIzinGuru i p now).id = i.id ∧
      (updateIzinGuru i p now).created_at = i.created_at ∧
      (p.guru_id = none → (updateIzinGuru i p now).guru_id = i.guru_id) ∧
      (p.leave_type = none → (updateIzinGuru i p now).leave_type = i.leave_type) ∧
      (p.start_date = none → (updateIzinGuru i p now).start_date = i.start_date) ∧
      (p.end_date = none → (updateIzinGuru i p now).end_date = i.end_date) ∧
      (p.reason = none → (updateIzinGuru i p now).reason = i.reason) ∧
      (p.status = none → (updateIzinGuru i p now).status = i.status) ∧
      (p.approved_by = none → (updateIzinGuru i p now).approved_by = i.approved_by) ∧
      (p.approval_date = none → (updateIzinGuru i p now).approval_date = i.approval_date) ∧
      (p.rejection_reason = none → (updateIzinGuru i p now).rejection_reason = i.rejection_reason) ∧
      (p.attachment = none → (updateIzinGuru i p now).attachment = i.attachment)) ∧
    (∀ (s : SchoolSettings) (p : SchoolSettingsPatch) (now : Nat),
      (updateSchoolSettings s p now).updated_at = now ∧
      (updateSchoolSettings s p now).id = s.id ∧
      (p.school_name = none → (updateSchoolSettings s p now).school_name = s.school_name) ∧
      (p.school_address = none → (updateSchoolSettings s p now).school_address = s.school_address) ∧
      (p.school_phone = none → (updateSchoolSettings s p now).school_phone = s.school_phone) ∧
      (p.school_email = none → (updateSchoolSettings s p now).school_email = s.school_email) ∧
      (p.logo_path = none → (updateSchoolSettings s p now).logo_path = s.logo_path) ∧
      (p.favicon_path = none → (updateSchoolSettings s p now).favicon_path = s.favicon_path) ∧
      (p.geofence_enabled = none → (updateSchoolSettings s p now).geofence_enabled = s.geofence_enabled) ∧
      (p.geofence_lat = none → (updateSchoolSettings s p now).geofence_lat = s.geofence_lat) ∧
      (p.geofence_lng = none → (updateSchoolSettings s p now).geofence_lng = s.geofence_lng) ∧
      (p.geofence_radius = none → (updateSchoolSettings s p now).geofence_radius = s.geofence_radius) ∧
      (p.academic_year = none → (updateSchoolSettings s p now).academic_year = s.academic_year)) := by
  refine ⟨?_, ?_, ?_, ?_, ?_, ?_⟩ <;>
    (intro e p now; repeat' apply And.intro) <;>
    first
      | rfl
      | (intro h
         simp only [updateUser, updateGuru, updateSiswa, updateManajemenSanksi,
           updateIzinGuru, updateSchoolSettings, h, Option.getD_none])

/-- Witness for C8 at concrete rows with the empty patch at time 99:
`updated_at` is refreshed and an unwritten field is unchanged, for each
of the six entities. -/
theorem claim_C8_update_refresh_witness :
    (updateUser userA userPatchNone 99).updated_at = 99 ∧
    (updateUser userA userPatchNone 99).username = userA.username ∧
    (updateGuru guruA guruPatchNone 99).updated_at = 99 ∧
    (updateGuru guruA guruPatchNone 99).user_id = guruA.user_id ∧
    (updateSiswa siswaA siswaPatchNone 99).updated_at = 99 ∧
    (updateSiswa siswaA siswaPatchNone 99).user_id = siswaA.user_id ∧
    (updateManajemenSanksi sanksiA sanksiPatchNone 99).updated_at = 99 ∧
    (updateManajemenSanksi sanksiA sanksiPatchNone 99).siswa_id =
      sanksiA.siswa_id ∧
    (updateIzinGuru izinA izinPatchNone 99).updated_at = 99 ∧
    (updateIzinGuru izinA izinPatchNone 99).guru_id = izinA.guru_id ∧
    (updateSchoolSettings schoolSettingsA settingsPatchNone 99).updated_at = 99 ∧
    (updateSchoolSettings schoolSettingsA settingsPatchNone 99).school_name =
      schoolSettingsA.school_name := by
  obtain ⟨hU, hG, hS, hM, hI, hSS⟩ := claim_C8_update_refresh
  have hu := hU userA userPatchNone 99
  have hg := hG guruA guruPatchNone 99
  have hs := hS siswaA siswaPatchNone 99
  have hm := hM sanksiA sanksiPatchNone 99
  have hi := hI izinA izinPatchNone 99
  have hss := hSS schoolSettingsA settingsPatchNone 99
  exact ⟨hu.1, hu.2.2.2.1 rfl, hg.1, hg.2.2.2.1 rfl, hs.1, hs.2.2.2.1 rfl,
    hm.1, hm.2.2.2.1 rfl, hi.1, hi.2.2.2.1 rfl, hss.1, hss.2.2.1 rfl⟩

/-- C9: the persisted layout has exactly one table per entity, named
users, jurusan, kelas, guru, siswa, kepala_sekolah, jenis_prestasi,
jenis_pelanggaran, input_prestasi, input_pelanggaran, manajemen_sanksi,
jadwal_mengajar, izin_guru, attendance_guru, attendance_siswa,
academic_calendar, school_settings — 17 distinct table names. -/
theorem claim_C9_table_names :
    tableNames = ["users", "jurusan", "kelas", "guru", "siswa",
      "kepala_sekolah", "jenis_prestasi", "jenis_pelanggaran",
      "input_prestasi", "input_pelanggaran", "manajemen_sanksi",
      "jadwal_mengajar", "izin_guru", "attendance_guru",
      "attendance_siswa", "academic_calendar", "school_settings"] ∧
    tableNames.Nodup ∧ tableNames.length = 17 :=
  ⟨rfl, by decide, rfl⟩

/-- C10: a `manajemen_sanksi` row built from a `SanctionCreate` payload
(which carries no status field) starts with status `pending`, and an
`izin_guru` row built from a `LeaveRequestCreate` payload (which carries
no status field) starts with status `pending` — the schema defaults of
models.py lines 248 and 293. -/
theorem claim_C10_default_pending_status :
    (∀ (c : SanctionCreate) (sid gid : Int) (now : Nat),
      (sanctionFromCreate c sid gid now).status = SanctionStatus.PENDING) ∧
    (∀ (c : LeaveRequestCreate) (gid : Int) (now : Nat),
      (izinGuruFromCreate c gid now).status = LeaveStatus.PENDING) :=
  ⟨fun _ _ _ _ => rfl, fun _ _ _ => rfl⟩
